import Mathlib

/-!
Verification of the nsx-operator childsubnet / subnetbinding resource
synchronization core. Go code is shallowly embedded: pointer-typed fields
become Option, Go slices become List, the NSX backend becomes an explicit
oracle, and a Go runtime panic (nil dereference, failed interface
conversion) becomes an explicit panic outcome. SDK data conversion
(ConvertToVapi, GetDataValue__) is treated as an injective constructor.
-/

namespace NSXOp

/-- NSX tag: a scope and a value. The Go model uses pointer fields for both,
but this code base always sets them, so plain strings are used. -/
structure Tag where
  scope : String
  tag : String
deriving DecidableEq, Repr

/-- Fields of model.SegmentConnectionBindingMap used by the childsubnet
service. Pointer-typed Go fields are embedded as Option. -/
structure SegmentConnectionBindingMap where
  id : Option String := none
  displayName : Option String := none
  segmentPath : Option String := none
  vlanTrafficTag : Option Int := none
  tags : List Tag := []
  markedForDelete : Option Bool := none
deriving DecidableEq, Repr

/-- ParentConfig from types.go. The Go field segmentPaths is a string set
(sets.String); it is embedded as a list fixing one iteration order, since
Go set iteration order is arbitrary. -/
structure ParentConfig where
  id : String := ""
  name : String := ""
  namespc : String := ""
  tier1Path : String := ""
  transportZonePath : String := ""
  segmentPaths : List String := []
  publicIPBlockPath : String := ""
  privateIPBlockPath : String := ""
deriving DecidableEq, Repr

/-- The store index parentSegmentPathKey indexes each binding map by its
dereferenced SegmentPath field; listByParentSegmentPath returns the stored
maps whose SegmentPath equals the queried parent path (part_003). -/
def listByParentSegmentPath (store : List SegmentConnectionBindingMap) (path : String) :
    List SegmentConnectionBindingMap :=
  store.filter (fun bm => bm.segmentPath == some path)

/-- Outcome of nextVlan: a tag, the allocation-exhausted error, or a Go nil
dereference panic (the code dereferences bm.VlanTrafficTag unconditionally). -/
inductive VlanOutcome where
  | ok (v : Int)
  | allocErr (msg : String)
  | panicNilDeref
deriving DecidableEq, Repr

/-- The binding maps collected by the nextVlan loop: for each candidate parent
segment path, the maps found through the parent-path secondary index,
concatenated in loop order (childsubnet.go lines 281 to 290). -/
def collectedBindingMaps (store : List SegmentConnectionBindingMap) (pc : ParentConfig) :
    List SegmentConnectionBindingMap :=
  pc.segmentPaths.foldl (fun acc p => acc ++ listByParentSegmentPath store p) []

/-- The VLAN tags in use across the collected binding maps. -/
def usedVlans (store : List SegmentConnectionBindingMap) (pc : ParentConfig) : List Int :=
  (collectedBindingMaps store pc).filterMap (fun bm => bm.vlanTrafficTag)

/-- The search loop of nextVlan: for i := 1; i <= 4094; i++, return the first
i that is not in the used set (childsubnet.go lines 291 to 295). The fuel
parameter counts the remaining loop iterations, 4094 in total. -/
def vlanLoop (used : List Int) : Nat → Int → Option Int
  | 0, _ => none
  | n + 1, i => if used.contains i then vlanLoop used n (i + 1) else some i

/-- nextVlan from childsubnet.go lines 278 to 298: collect the VLAN tags of
every binding map attached to a candidate parent segment path, then return
the smallest unused integer in the closed range 1 to 4094, or an error
naming the ChildSubnet and its parent when all tags are in use. A stored map
with a nil VlanTrafficTag would make the Go code panic; that outcome is
explicit here. -/
def nextVlan (store : List SegmentConnectionBindingMap) (pc : ParentConfig)
    (uid specParent : String) : VlanOutcome :=
  if (collectedBindingMaps store pc).any (fun bm => bm.vlanTrafficTag.isNone) then
    .panicNilDeref
  else
    match vlanLoop (usedVlans store pc) 4094 1 with
    | some i => .ok i
    | none => .allocErr ("no valid VLAN for segment connection binding maps for ChildSubnet "
        ++ uid ++ " to parent " ++ specParent)

/-- Modelled from the spec: util.GenerateID is not under src; the spec states
ids are derived deterministically from the owning CR UID plus a kind-specific
prefix, with optional extra parts. Parts that are empty are skipped. -/
def generateID (uid pfx sfx idx : String) : String :=
  String.intercalate "_" (([pfx, uid, sfx, idx]).filter (fun s => s ≠ ""))

/-- Modelled from the spec: util.GenerateDisplayName is not under src; display
names are derived from the owning CR human name plus the same parts. -/
def generateDisplayName (name pfx sfx idx : String) : String :=
  String.intercalate "_" (([pfx, name, sfx, idx]).filter (fun s => s ≠ ""))

/-- getSegmentIDFromPath from t1builder.go: the last path segment. -/
def getSegmentIDFromPath (path : String) : String :=
  ((path.splitOn "/").getLast?).getD ""

/-- buildSegmentBindingMapID from t1builder.go. -/
def buildSegmentBindingMapID (uid parentID : String) : String :=
  generateID uid "scbm" parentID ""

/-- buildSegmentBindingMapName from t1builder.go. -/
def buildSegmentBindingMapName (name parentID : String) : String :=
  generateDisplayName name "scbm" parentID ""

/-- Tag scope used to correlate binding maps with their parent configuration. -/
def tagScopeParentConfigUID : String := "nsx-op/parent_config_uid"

/-- BuildSegmentConnectionBindingMap from t1builder.go lines 242 to 250. -/
def BuildSegmentConnectionBindingMap (bmId name parentPath : String) (vlanTag : Int)
    (tags : List Tag) : SegmentConnectionBindingMap :=
  { id := some bmId
    displayName := some name
    segmentPath := some parentPath
    vlanTrafficTag := some vlanTag
    tags := tags }

/-- buildSegmentConnectionBindingMaps from t1builder.go lines 85 to 100. The Go
code allocates the result with make of length n and then appends the n built
maps, so the returned slice holds n nil pointers followed by the n built
maps; nil pointers are embedded as none. -/
def buildSegmentConnectionBindingMaps (uid name : String) (pc : ParentConfig)
    (vlanTag : Int) (tags : List Tag) : List (Option SegmentConnectionBindingMap) :=
  let bindMapTags := tags ++ [⟨tagScopeParentConfigUID, pc.id⟩]
  List.replicate pc.segmentPaths.length none ++
    pc.segmentPaths.map (fun parentPath =>
      let parentID := getSegmentIDFromPath parentPath
      some (BuildSegmentConnectionBindingMap (buildSegmentBindingMapID uid parentID)
        (buildSegmentBindingMapName name parentID) parentPath vlanTag bindMapTags))

/-- SegmentConnectionBindingMapsToComparable from part_003 lines 786 to 793: a
Comparable is the same record viewed through the diff interface, so the
conversion is the identity; the Go code again allocates length n with make
and appends, yielding n nil entries followed by the inputs. -/
def SegmentConnectionBindingMapsToComparable
    (scbms : List (Option SegmentConnectionBindingMap)) :
    List (Option SegmentConnectionBindingMap) :=
  List.replicate scbms.length none ++ scbms

/-- Concrete store for the C5 witness: three binding maps with VLAN tags 1, 2
and 3 on the single candidate parent path. -/
def vlanWitnessStore : List SegmentConnectionBindingMap :=
  [ { id := some "scbm_u1_p1", segmentPath := some "/infra/segments/p1", vlanTrafficTag := some 1 },
    { id := some "scbm_u2_p1", segmentPath := some "/infra/segments/p1", vlanTrafficTag := some 2 },
    { id := some "scbm_u3_p1", segmentPath := some "/infra/segments/p1", vlanTrafficTag := some 3 } ]

/-- Parent configuration for the C5 witness. -/
def vlanWitnessPC : ParentConfig :=
  { segmentPaths := ["/infra/segments/p1"] }

/-- A parent configuration with exactly one candidate parent segment path,
exhibiting the C8 failing input. -/
def onePathPC : ParentConfig :=
  { segmentPaths := ["/infra/segments/parent1"] }

/-- Key from part_003 line 762: the dereferenced Id of a binding map. The Go
code would panic on a nil Id; the Option values are compared directly here,
which agrees with Go whenever ids are present. -/
def SegmentConnectionBindingMap.Key (scbm : SegmentConnectionBindingMap) : Option String :=
  scbm.id

/-- Value from part_003 lines 766 to 770: the canonical record keeps only Id,
DisplayName and Tags; every other field (SegmentPath, VlanTrafficTag,
MarkedForDelete) is dropped. The SDK serialization GetDataValue__ is
injective on the kept fields and is identified with the record itself. -/
def SegmentConnectionBindingMap.Value (scbm : SegmentConnectionBindingMap) :
    SegmentConnectionBindingMap :=
  { id := scbm.id, displayName := scbm.displayName, tags := scbm.tags }

/-- Modelled from the spec: common.CompareResources is not under src. Spec
section 4.2: index existing by key; a desired item is changed when no
existing item shares its key or the canonical values differ; an existing
item whose key is absent from desired is stale. -/
def CompareResources (existing desired : List SegmentConnectionBindingMap) :
    List SegmentConnectionBindingMap × List SegmentConnectionBindingMap :=
  let changed := desired.filter (fun d =>
    !(existing.any (fun e => e.Key == d.Key && e.Value == d.Value)))
  let stale := existing.filter (fun e =>
    !(desired.any (fun d => d.Key == e.Key)))
  (changed, stale)

/-- First binding map of the C6 pair: VLAN tag 10 on parent path p1. -/
def c6MapA : SegmentConnectionBindingMap :=
  { id := some "scbm_u1_p1", displayName := some "bm1",
    tags := [⟨"nsx-op/cluster", "c1"⟩],
    segmentPath := some "/infra/segments/p1", vlanTrafficTag := some 10 }

/-- Second binding map of the C6 pair: same id, display name and tags, but
VLAN tag 11 on parent path p2. -/
def c6MapB : SegmentConnectionBindingMap :=
  { id := some "scbm_u1_p1", displayName := some "bm1",
    tags := [⟨"nsx-op/cluster", "c1"⟩],
    segmentPath := some "/infra/segments/p2", vlanTrafficTag := some 11 }

namespace SubnetBinding

/-- model.SubnetConnectionBindingMap as used by the subnetbinding hierarchy
builder. The Go Id and ParentPath pointers are always set by the callers of
this builder, so plain strings are used. -/
structure SubnetConnectionBindingMap where
  id : String
  parentPath : String := ""
  markedForDelete : Option Bool := none
deriving DecidableEq, Repr

/-- The leaf resource type of the subnetbinding hierarchy builder. -/
def leafType : String := "SubnetConnectionBindingMap"

/-- hNode from part_004 lines 12 to 17: one ephemeral hierarchy tree node. A
leaf node has resourceType leafType and carries the binding map. -/
inductive HNode where
  | mk (resourceType : String) (resourceID : String)
      (bindingMap : Option SubnetConnectionBindingMap) (childNodes : List HNode)

/-- The resource type of a node. -/
def HNode.resourceType : HNode → String
  | .mk t _ _ _ => t

/-- The resource id of a node. -/
def HNode.resourceID : HNode → String
  | .mk _ i _ _ => i

/-- The binding map carried by a leaf node. -/
def HNode.bindingMap : HNode → Option SubnetConnectionBindingMap
  | .mk _ _ b _ => b

/-- The child nodes of a node. -/
def HNode.childNodes : HNode → List HNode
  | .mk _ _ _ c => c

/-- Replace the child list of a node. -/
def HNode.withChildNodes : HNode → List HNode → HNode
  | .mk t i b _, cs => .mk t i b cs

mutual

/-- The sibling walk of hNode.mergeChildNode (part_004 lines 25 to 32): find
the first existing child with the same (resourceType, resourceID); when it
exists, merge every child of the incoming node into it and keep the rest of
the siblings; otherwise report absence. -/
def replaceFirst (cs : List HNode) (node : HNode) : Option (List HNode) :=
  match cs, node with
  | [], _ => none
  | cn :: rest, .mk nt ni nb ncs =>
    if cn.resourceType == nt && cn.resourceID == ni then
      some (cn.withChildNodes (mergeNodeList cn.childNodes ncs) :: rest)
    else
      (replaceFirst rest (.mk nt ni nb ncs)).map (fun tail => cn :: tail)
termination_by (sizeOf node, sizeOf cs)
decreasing_by
  all_goals simp_wf
  · apply Prod.Lex.left
    omega
  · apply Prod.Lex.right
    omega

/-- Merge a list of incoming nodes into a sibling list in order; this is the
loop over node.childNodes in hNode.mergeChildNode. -/
def mergeNodeList (cs : List HNode) (nodes : List HNode) : List HNode :=
  match nodes with
  | [] => cs
  | n :: rest => mergeNodeList (insertNode cs n) rest
termination_by (sizeOf nodes, 0)
decreasing_by
  all_goals simp_wf
  · apply Prod.Lex.left
    omega
  · apply Prod.Lex.left
    omega

/-- hNode.mergeChildNode from part_004 lines 19 to 34, expressed on the child
list of the receiver: a leaf is always appended; a non-leaf node either
merges into the first sibling with the same (resourceType, resourceID) or is
appended as a new sibling. -/
def insertNode (cs : List HNode) (node : HNode) : List HNode :=
  if node.resourceType == leafType then cs ++ [node]
  else
    match replaceFirst cs node with
    | some merged => merged
    | none => cs ++ [node]
termination_by (sizeOf node, sizeOf cs + 1)
decreasing_by
  apply Prod.Lex.right
  omega

end

/-- hNode.mergeChildNode as a function from the receiver to the updated
receiver. -/
def HNode.mergeChildNode (n : HNode) (node : HNode) : HNode :=
  n.withChildNodes (insertNode n.childNodes node)

/-- VPC resource path components returned by common.ParseVPCResourcePath. -/
structure VPCResourceInfo where
  orgID : String
  projectID : String
  vpcID : String
  id : String
deriving DecidableEq, Repr

/-- Split a character list on the slash character, accumulating the current
segment; agrees with splitting a string on the slash separator. -/
def splitOnSlashAux : List Char → List Char → List String
  | [], acc => [String.mk acc.reverse]
  | c :: rest, acc =>
    if c = '/' then String.mk acc.reverse :: splitOnSlashAux rest []
    else splitOnSlashAux rest (c :: acc)

/-- Split a string into its slash-separated segments. -/
def splitOnSlash (s : String) : List String :=
  splitOnSlashAux s.toList []

/-- Modelled from the spec: common.ParseVPCResourcePath is not under src. The
spec states that a declared ancestor path is parsed into the ordered list of
(segmentType, segmentID) pairs organization, project, virtual network and
bound subnet; a path of the form /orgs/o/projects/p/vpcs/v/subnets/s parses
into those four ids and anything else is a parse failure. -/
def parseVPCResourcePath (path : String) : Option VPCResourceInfo :=
  match splitOnSlash path with
  | ["", "orgs", o, "projects", p, "vpcs", v, "subnets", s] =>
    some { orgID := o, projectID := p, vpcID := v, id := s }
  | _ => none

/-- buildHNodeFromSubnetConnectionBindingMap from part_004 lines 60 to 94: the
spine Org, Project, Vpc, Subnet ending in the leaf wrapper, or none when the
path does not parse. -/
def buildHNodeFromSubnetConnectionBindingMap (subnetPath : String)
    (bindingMap : SubnetConnectionBindingMap) : Option HNode :=
  match parseVPCResourcePath subnetPath with
  | none => none
  | some vpcInfo =>
    some (.mk "Org" vpcInfo.orgID none
      [.mk "Project" vpcInfo.projectID none
        [.mk "Vpc" vpcInfo.vpcID none
          [.mk "Subnet" vpcInfo.id none
            [.mk leafType bindingMap.id (some bindingMap) []]]]])

/-- The merged root node built by buildOrgRootBySubnetConnectionBindingMaps
before serialization (part_004 lines 97 to 116): fold every binding map into
an OrgRoot node, setting the tombstone when requested, overriding the parent
path with subnetPath when that is nonempty, and skipping a leaf whose path
does not parse. -/
def buildRootNode (bindingMaps : List SubnetConnectionBindingMap)
    (markForDelete : Option Bool) (subnetPath : String) : HNode :=
  bindingMaps.foldl (fun root bm =>
    let bm1 := match markForDelete with
      | some b => { bm with markedForDelete := some b }
      | none => bm
    let parentPath := if subnetPath == "" then bm1.parentPath else subnetPath
    match buildHNodeFromSubnetConnectionBindingMap parentPath bm1 with
    | none => root
    | some orgNode => root.mergeChildNode orgNode)
    (.mk "OrgRoot" "" none [])

/-- Serialized child wrapper (data.StructValue): either a wrapped leaf binding
map (ChildSubnetConnectionBindingMap) or a typed child resource reference
carrying its serialized children. SDK conversion is identified with the
constructors. -/
inductive StructValue where
  | childBindingMap (id : String) (markedForDelete : Option Bool)
      (bindingMap : SubnetConnectionBindingMap)
  | childResourceReference (targetType : String) (id : String)
      (children : List StructValue)

mutual

/-- hNode.buildTree from part_004 lines 36 to 58: a leaf serializes to its
wrapper (none models the Go nil dereference panic on a leaf without a
binding map), an OrgRoot contributes only its children, and any other node
serializes to one child resource reference wrapper. -/
def HNode.buildTree : HNode → Option (List StructValue)
  | .mk t i b cs =>
    if t == leafType then
      b.map (fun bm => [StructValue.childBindingMap bm.id bm.markedForDelete bm])
    else
      match buildTreeList cs with
      | none => none
      | some children =>
        if t == "OrgRoot" then some children
        else some [StructValue.childResourceReference t i children]

/-- The child loop of hNode.buildTree, concatenating serialized children. -/
def buildTreeList : List HNode → Option (List StructValue)
  | [] => some []
  | cn :: rest =>
    match cn.buildTree with
    | none => none
    | some vs =>
      match buildTreeList rest with
      | none => none
      | some ws => some (vs ++ ws)

end

/-- model.OrgRoot: the serialized request root. -/
structure OrgRoot where
  children : List StructValue
  resourceType : String

/-- buildOrgRootBySubnetConnectionBindingMaps from part_004 lines 96 to 128.
The none result models the Go nil pointer returned when serialization
fails. -/
def buildOrgRootBySubnetConnectionBindingMaps
    (bindingMaps : List SubnetConnectionBindingMap)
    (markForDelete : Option Bool) (subnetPath : String) : Option OrgRoot :=
  match (buildRootNode bindingMaps markForDelete subnetPath).buildTree with
  | none => none
  | some children => some { children := children, resourceType := "OrgRoot" }

mutual

/-- Count the nodes of a tree with the given (resourceType, resourceID) pair,
leaf wrappers excluded. -/
def countNodes (t : HNode) (ty rid : String) : Nat :=
  match t with
  | .mk t0 i0 _ cs =>
    (if t0 ≠ leafType ∧ t0 = ty ∧ i0 = rid then 1 else 0) + countNodesList cs ty rid

/-- Sum of countNodes over a child list. -/
def countNodesList (cs : List HNode) (ty rid : String) : Nat :=
  match cs with
  | [] => 0
  | c :: rest => countNodes c ty rid + countNodesList rest ty rid

end

mutual

/-- Count the ancestor nodes of a tree: nodes that are neither leaf wrappers
nor the OrgRoot node. -/
def countAncestors (t : HNode) : Nat :=
  match t with
  | .mk t0 _ _ cs =>
    (if t0 ≠ leafType ∧ t0 ≠ "OrgRoot" then 1 else 0) + countAncestorsList cs

/-- Sum of countAncestors over a child list. -/
def countAncestorsList (cs : List HNode) : Nat :=
  match cs with
  | [] => 0
  | c :: rest => countAncestors c + countAncestorsList rest

end

mutual

/-- Count the leaf wrappers of a tree. -/
def countLeaves (t : HNode) : Nat :=
  match t with
  | .mk t0 _ _ cs => (if t0 = leafType then 1 else 0) + countLeavesList cs

/-- Sum of countLeaves over a child list. -/
def countLeavesList (cs : List HNode) : Nat :=
  match cs with
  | [] => 0
  | c :: rest => countLeaves c + countLeavesList rest

end

mutual

/-- Erase every leaf wrapper from a tree, keeping the ancestor skeleton. -/
def stripLeaves (t : HNode) : HNode :=
  match t with
  | .mk t0 i0 b cs => .mk t0 i0 b (stripLeavesList cs)

/-- Erase leaves below a child list, dropping leaf children themselves. -/
def stripLeavesList (cs : List HNode) : List HNode :=
  match cs with
  | [] => []
  | c :: rest =>
    if c.resourceType == leafType then stripLeavesList rest
    else stripLeaves c :: stripLeavesList rest

end

mutual

/-- The binding maps carried by the leaf wrappers of a tree, in child order. -/
def leafMaps (t : HNode) : List SubnetConnectionBindingMap :=
  match t with
  | .mk t0 _ b cs =>
    (if t0 = leafType then b.toList else []) ++ leafMapsList cs

/-- Concatenation of leafMaps over a child list. -/
def leafMapsList (cs : List HNode) : List SubnetConnectionBindingMap :=
  match cs with
  | [] => []
  | c :: rest => leafMaps c ++ leafMapsList rest

end

/-- The ancestor spine above a list of leaves: Org, Project, Vpc, Subnet. -/
def spine (o p v s : String) (leaves : List HNode) : HNode :=
  .mk "Org" o none
    [.mk "Project" p none
      [.mk "Vpc" v none
        [.mk "Subnet" s none leaves]]]

/-- The leaf node built for a binding map. -/
def leafNodeOf (bm : SubnetConnectionBindingMap) : HNode :=
  .mk leafType bm.id (some bm) []

end SubnetBinding

/-- model.IpAddressPool fields used by the childsubnet service. -/
structure IpAddressPool where
  id : Option String := none
  displayName : Option String := none
  tags : List Tag := []
  markedForDelete : Option Bool := none
deriving DecidableEq, Repr

/-- model.IpAddressPoolBlockSubnet fields used by the childsubnet service. -/
structure IpAddressPoolBlockSubnet where
  id : Option String := none
  displayName : Option String := none
  ipBlockPath : Option String := none
  size : Option Int := none
  tags : List Tag := []
  markedForDelete : Option Bool := none
deriving DecidableEq, Repr

/-- model.Segment fields used by the childsubnet service. -/
structure Segment where
  id : Option String := none
  displayName : Option String := none
  connectivityPath : Option String := none
  transportZonePath : Option String := none
  gatewayAddresses : List String := []
  addressPoolPaths : List String := []
  tags : List Tag := []
  markedForDelete : Option Bool := none
deriving DecidableEq, Repr

/-- model.Tier1 fields used by the childsubnet service. -/
structure Tier1 where
  id : Option String := none
  path : Option String := none
  tags : List Tag := []
  markedForDelete : Option Bool := none
deriving DecidableEq, Repr

/-- model.PolicyNat fields used by the childsubnet service. -/
structure PolicyNat where
  id : Option String := none
  displayName : Option String := none
  natType : Option String := none
  markedForDelete : Option Bool := none
deriving DecidableEq, Repr

/-- model.PolicyNatRule fields used by the childsubnet service. -/
structure PolicyNatRule where
  id : Option String := none
  displayName : Option String := none
  action : Option String := none
  sourceNetwork : Option String := none
  destinationNetwork : Option String := none
  tags : List Tag := []
  markedForDelete : Option Bool := none
deriving DecidableEq, Repr

/-- net.IPNet as extracted by the realized-state scan: an already parsed CIDR
(address and mask); the string parsing itself belongs to the external net
package and stays behind the oracle boundary. -/
structure IPNet where
  ip : String
  mask : String
deriving DecidableEq, Repr

/-- net.IP: an already parsed address. -/
structure IP where
  addr : String
deriving DecidableEq, Repr

/-- The printed form of an IPNet, as used for gateway addresses and NAT
networks. -/
def IPNet.repr (n : IPNet) : String :=
  n.ip ++ "/" ++ n.mask

/-- One related error inside a structured NSX API error. -/
structure ApiErrItem where
  errorCode : Option Int := none
  errorMessage : Option String := none
deriving DecidableEq, Repr

/-- A structured NSX API error as recovered by nsxutil.DumpAPIError. -/
structure ApiError where
  relatedErrors : List ApiErrItem := []
deriving DecidableEq, Repr

/-- A backend failure: either a structured API error or a transport error
without structure. -/
inductive BackendErr where
  | api (e : ApiError)
  | transport (msg : String)
deriving DecidableEq, Repr

/-- Errors surfaced by the childsubnet service: the raw backend error, the
typed IPBlockExhausted error from nsxutil, or a formatted message error. -/
inductive NsxErr where
  | backend (e : BackendErr)
  | ipBlockExhausted (desc : String)
  | strErr (msg : String)
deriving DecidableEq, Repr

/-- nsxutil.DumpAPIError is not under src; it recovers the structured API
error carried by a backend error, if any. -/
def dumpAPIError : BackendErr → Option ApiError
  | .api e => some e
  | .transport _ => none

/-- The ChildSubnet custom resource fields consumed by the service. -/
structure ChildSubnet where
  uid : String
  name : String := ""
  namespc : String := ""
  specParent : String := ""
  accessMode : String := "Private"
  subnetPrefixLength : Int := 24
deriving DecidableEq, Repr

/-- The in-memory resource stores and the exhausted IP block set of
ChildSubnetService. Each store is the list of cached resources. The
exhaustedIPBlock field is a Go map (sets.Set of string) that
InitializeChildSubnet (childsubnet.go lines 51 to 62) never initializes, so
it is nil on every constructed service: none models the nil map, some a map
holding the given paths. -/
structure ServiceState where
  ipPoolStore : List IpAddressPool := []
  ipBlockSubnetStore : List IpAddressPoolBlockSubnet := []
  childSegmentStore : List Segment := []
  connectionBindingMapStore : List SegmentConnectionBindingMap := []
  tier1Store : List Tier1 := []
  natRuleStore : List PolicyNatRule := []
  parentConfigStore : List ParentConfig := []
  exhaustedIPBlock : Option (List String) := none
deriving DecidableEq, Repr

/-- A hierarchical infra child: the wrapped subtree the service patches. A
pool carries its block subnets, a segment its binding maps, a tier1 its NAT
holding the NAT rules. SDK wrapping is identified with the constructors. -/
inductive InfraChild where
  | ipPoolChild (pool : IpAddressPool) (subnets : List IpAddressPoolBlockSubnet)
  | segmentChild (segment : Segment) (bindingMaps : List SegmentConnectionBindingMap)
  | tier1Child (tier1 : Tier1) (nat : PolicyNat) (rules : List PolicyNatRule)
deriving DecidableEq, Repr

/-- model.Infra: the root of a hierarchical patch request. -/
structure Infra where
  children : List InfraChild
deriving DecidableEq, Repr

/-- One request sent to the NSX backend, in order of emission. -/
inductive Request where
  | infraPatch (infra : Infra)
  | realizedList (attempt : Nat)
deriving DecidableEq, Repr

/-- The NSX backend behavior visible to one createChildSubnets or
DeleteChildSubnet run, supplied as an oracle: the outcome of the pool
create patch, the realized-state scan result per polling attempt (reduced
to the optional parsed cidr and gateway the Go loop extracts from the
realized entities), the outcome of the segment patch and the outcome of the
delete patch. A none outcome is success. -/
structure Backend where
  ipPoolPatch : Option BackendErr := none
  realized : Nat → Except BackendErr (Option IPNet × Option IP) := fun _ => .ok (none, none)
  segmentPatch : Option BackendErr := none
  infraDeletePatch : Option BackendErr := none

/-- Scope of the tag correlating a backend resource with its owning
ChildSubnet (common.TagScopeChildSubnetUID; the common package is not under
src, the exact scope string does not matter to any claim). -/
def tagScopeChildSubnetUID : String := "nsx-op/child_subnet_uid"

/-- filterTag from part_003 lines 71 to 79: the values of the tags with the
given scope. -/
def filterTag (tags : List Tag) (tagScope : String) : List String :=
  (tags.filter (fun t => t.scope == tagScope)).map (fun t => t.tag)

/-- Whether a resource is indexed under the given ChildSubnet uid. -/
def hasChildSubnetTag (tags : List Tag) (uid : String) : Bool :=
  (filterTag tags tagScopeChildSubnetUID).contains uid

/-- SegmentStore.getByChildSubnet: first stored segment tagged with the uid,
if any (part_003 lines 329 to 338). -/
def segGetByChildSubnet (store : List Segment) (uid : String) : Option Segment :=
  (store.filter (fun s => hasChildSubnetTag s.tags uid)).head?

/-- SegmentConnectionBindingMapStore.listByChildSubnet (part_003 line 454). -/
def cbmListByChildSubnet (store : List SegmentConnectionBindingMap) (uid : String) :
    List SegmentConnectionBindingMap :=
  store.filter (fun s => hasChildSubnetTag s.tags uid)

/-- IPPoolStore.GetByChildSubnet (part_003 lines 212 to 221). -/
def ipPoolGetByChildSubnet (store : List IpAddressPool) (uid : String) : Option IpAddressPool :=
  (store.filter (fun s => hasChildSubnetTag s.tags uid)).head?

/-- IPPoolBlockSubnetStore.GetByChildSubnet (part_003 lines 260 to 269). -/
def ipSubnetGetByChildSubnet (store : List IpAddressPoolBlockSubnet) (uid : String) :
    Option IpAddressPoolBlockSubnet :=
  (store.filter (fun s => hasChildSubnetTag s.tags uid)).head?

/-- NATRuleStore.GetNATRulesByChildSubnet (part_003 line 661). -/
def natListByChildSubnet (store : List PolicyNatRule) (uid : String) : List PolicyNatRule :=
  store.filter (fun s => hasChildSubnetTag s.tags uid)

/-- ParentConfigStore.getByNamespaceName (part_003 lines 732 to 741): lookup
by the namespace and name pair. -/
def parentConfigGetByNamespaceName (store : List ParentConfig) (name namespc : String) :
    Option ParentConfig :=
  (store.filter (fun pc => pc.namespc == namespc && pc.name == name)).head?

/-- getTier1ByParent from childsubnet.go lines 471 to 482: nil when the parent
has no tier1 path, otherwise the tier1 stored under that policy path (nil
again when absent; the error branch of the Go code is indexer-internal and
unreachable). -/
def getTier1ByParent (st : ServiceState) (pc : ParentConfig) : Option Tier1 :=
  if pc.tier1Path = "" then none
  else (st.tier1Store.filter (fun t => t.path == some pc.tier1Path)).head?

/-- getValidIPBlockPath from childsubnet.go lines 257 to 262. -/
def getValidIPBlockPath (accessMode : String) (pc : ParentConfig) : String :=
  if accessMode = "Public" then pc.publicIPBlockPath else pc.privateIPBlockPath

/-- buildIPPoolID from t1builder.go. -/
def buildIPPoolID (cs : ChildSubnet) : String := generateID cs.uid "ipc" "" ""

/-- buildIPPoolName from t1builder.go. -/
def buildIPPoolName (cs : ChildSubnet) : String := generateDisplayName cs.name "ipc" "" ""

/-- buildIPPoolIntentPath from t1builder.go. -/
def buildIPPoolIntentPath (cs : ChildSubnet) : String :=
  "/infra/ip-pools/" ++ buildIPPoolID cs

/-- buildIPSubnetID from t1builder.go. -/
def buildIPSubnetID (cs : ChildSubnet) : String := generateID cs.uid "ibs" "" ""

/-- buildIPSubnetName from t1builder.go. -/
def buildIPSubnetName (cs : ChildSubnet) : String := generateDisplayName cs.name "ibs" "" ""

/-- buildIPSubnetIntentPath from t1builder.go. -/
def buildIPSubnetIntentPath (cs : ChildSubnet) : String :=
  "/infra/ip-pools/" ++ buildIPPoolID cs ++ "/ip-subnets/" ++ buildIPSubnetID cs

/-- buildSegmentID from t1builder.go. -/
def buildSegmentID (cs : ChildSubnet) : String := generateID cs.uid "cs" "" ""

/-- buildSegmentName from t1builder.go. -/
def buildSegmentName (cs : ChildSubnet) : String := generateDisplayName cs.name "cs" "" ""

/-- buildSegmentIntentPath from t1builder.go. -/
def buildSegmentIntentPath (cs : ChildSubnet) : String :=
  "/infra/segments/" ++ buildSegmentID cs

/-- Modelled from the spec: util.CalculateSubnetSize is not under src; the
subnet size derives from the prefix-length sizing hint. -/
def CalculateSubnetSize (prefixLength : Int) : Int :=
  (2 : Int) ^ ((32 - prefixLength).toNat)

/-- Modelled from the spec: ippool.BuildIPPool is not under src; it assembles
the pool record from id, display name and tags. -/
def BuildIPPool (poolId name : String) (tags : List Tag) : IpAddressPool :=
  { id := some poolId, displayName := some name, tags := tags }

/-- Modelled from the spec: ippool.BuildIPSubnet is not under src; it
assembles the block subnet record from id, display name, the chosen IP
block path, tags and the size. -/
def BuildIPSubnet (subId name : String) (ipBlockPath : Option String) (tags : List Tag)
    (size : Int) : IpAddressPoolBlockSubnet :=
  { id := some subId, displayName := some name, ipBlockPath := ipBlockPath,
    tags := tags, size := some size }

/-- buildIPPoolWithSubnets from t1builder.go lines 26 to 31. -/
def buildIPPoolWithSubnets (cs : ChildSubnet) (ipBlockPath : Option String)
    (basicTags : List Tag) : IpAddressPool × IpAddressPoolBlockSubnet :=
  (BuildIPPool (buildIPPoolID cs) (buildIPPoolName cs) basicTags,
   BuildIPSubnet (buildIPSubnetID cs) (buildIPSubnetName cs) ipBlockPath basicTags
     (CalculateSubnetSize cs.subnetPrefixLength))

/-- BuildSegment from t1builder.go lines 223 to 240. -/
def BuildSegment (segId name connectivityPath tzPath : String) (gateways : List IPNet)
    (ipPoolPath : String) (tags : List Tag) : Segment :=
  { id := some segId, displayName := some name, connectivityPath := some connectivityPath,
    transportZonePath := some tzPath, gatewayAddresses := gateways.map IPNet.repr,
    addressPoolPaths := [ipPoolPath], tags := tags }

/-- buildSegment from t1builder.go lines 65 to 71. -/
def buildSegment (cs : ChildSubnet) (pc : ParentConfig) (ipPoolPath : String)
    (subnetGateways : List IPNet) (tags : List Tag) : Segment :=
  BuildSegment (buildSegmentID cs) (buildSegmentName cs) pc.tier1Path pc.transportZonePath
    subnetGateways ipPoolPath tags

/-- BuildDefaultSNAT from t1builder.go lines 252 to 258. -/
def BuildDefaultSNAT : PolicyNat :=
  { id := some "DEFAULT", displayName := some "DEFAULT", natType := some "DEFAULT" }

/-- BuildNATRules from t1builder.go lines 260 to 274. -/
def BuildNATRules (ruleId name natAction : String) (networkCIDR : IPNet) (isSrc : Bool)
    (tags : List Tag) : PolicyNatRule :=
  { id := some ruleId, displayName := some name, action := some natAction, tags := tags,
    sourceNetwork := if isSrc then some networkCIDR.repr else none,
    destinationNetwork := if isSrc then none else some networkCIDR.repr }

/-- buildPolicyNATRuleID from t1builder.go. -/
def buildPolicyNATRuleID (cs : ChildSubnet) (index : Nat) : String :=
  generateID cs.uid "pnr" "" (toString index)

/-- buildPolicyNATRuleName from t1builder.go. -/
def buildPolicyNATRuleName (cs : ChildSubnet) (index : Nat) : String :=
  generateDisplayName cs.name "pnr" (toString index) ""

/-- buildPolicySNATRules from t1builder.go lines 115 to 136: two NAT rules per
subnet network, source then destination, NO_SNAT for public access mode and
SNAT otherwise. -/
def buildPolicySNATRules (cs : ChildSubnet) (subnetNetworks : List IPNet)
    (tags : List Tag) : List PolicyNatRule :=
  let snatAction := if cs.accessMode = "Public" then "NO_SNAT" else "SNAT"
  subnetNetworks.enum.flatMap (fun pair =>
    let indexBase := pair.1 * 2
    let networkCDIR := pair.2
    [ BuildNATRules (buildPolicyNATRuleID cs indexBase) (buildPolicyNATRuleName cs indexBase)
        snatAction networkCDIR true tags,
      BuildNATRules (buildPolicyNATRuleID cs (indexBase + 1))
        (buildPolicyNATRuleName cs (indexBase + 1)) snatAction networkCDIR false tags ])

/-- Dereference every pointer of a Go slice; a nil element is the Go runtime
panic raised by the wrap helpers when they write the ResourceType field
through the pointer. -/
def derefAll {a : Type} : List (Option a) → Except String (List a)
  | [] => .ok []
  | none :: _ => .error "invalid memory address or nil pointer dereference"
  | some x :: rest =>
    match derefAll rest with
    | .error e => .error e
    | .ok xs => .ok (x :: xs)

/-- WrapHierarchyIPPool from wrap.go lines 39 to 45: one infra child holding
the pool and its block subnet. -/
def WrapHierarchyIPPool (iap : IpAddressPool) (iapbs : IpAddressPoolBlockSubnet) : Infra :=
  { children := [InfraChild.ipPoolChild iap [iapbs]] }

/-- WrapHierarchySegmentAndNAT from wrap.go lines 47 to 66: the segment child
with its binding maps (each dereferenced, so a nil binding map from the
builder panics) plus, when a tier1 is present, the tier1 child with the NAT
rules. -/
def WrapHierarchySegmentAndNAT (segment : Segment)
    (bindingMaps : List (Option SegmentConnectionBindingMap)) (tier1 : Option Tier1)
    (nat : PolicyNat) (natRules : List PolicyNatRule) : Except String Infra :=
  match derefAll bindingMaps with
  | .error e => .error e
  | .ok bms =>
    let segChildren := [InfraChild.segmentChild segment bms]
    let natChildren :=
      match tier1 with
      | some t1 => [InfraChild.tier1Child t1 nat natRules]
      | none => []
    .ok { children := segChildren ++ natChildren }

/-- WrapHierarchyInfra from wrap.go lines 10 to 37: include the pool child
when the pool is present (dereferencing its block subnet, so a present pool
with an absent subnet panics), the segment child when the segment is
present, and the tier1 child when the tier1 is present and there is at
least one NAT rule; an empty batch yields a nil request. -/
def WrapHierarchyInfra (ipPool : Option IpAddressPool)
    (ipSubnet : Option IpAddressPoolBlockSubnet) (segment : Option Segment)
    (bindingMaps : List SegmentConnectionBindingMap) (tier1 : Option Tier1)
    (nat : PolicyNat) (natRules : List PolicyNatRule) : Except String (Option Infra) :=
  match ipPool, ipSubnet with
  | some _, none => .error "invalid memory address or nil pointer dereference"
  | _, _ =>
    let poolChildren :=
      match ipPool, ipSubnet with
      | some pool, some sub => [InfraChild.ipPoolChild pool [sub]]
      | _, _ => []
    let segChildren :=
      match segment with
      | some seg => [InfraChild.segmentChild seg bindingMaps]
      | none => []
    let natChildren :=
      match tier1 with
      | some t1 => if natRules.length > 0 then [InfraChild.tier1Child t1 nat natRules] else []
      | none => []
    let cs := poolChildren ++ segChildren ++ natChildren
    if cs.isEmpty then .ok none else .ok (some { children := cs })

/-- Try the Go pattern path equals bracketed group at the head of the
character list: after the literal path=[ take the maximal run of characters
other than the closing bracket; the group must be nonempty and followed by
the closing bracket. -/
def matchPathAt (cs : List Char) : Option (List Char) :=
  match cs with
  | 'p' :: 'a' :: 't' :: 'h' :: '=' :: '[' :: rest =>
    let grp := rest.takeWhile (fun c => c ≠ ']')
    if grp.isEmpty then none
    else
      match rest.dropWhile (fun c => c ≠ ']') with
      | ']' :: _ => some grp
      | _ => none
  | _ => none

/-- Leftmost match of the Go regular expression used at childsubnet.go line
381: try matchPathAt at every position from the left. -/
def findPathSubmatch : List Char → Option String
  | [] => none
  | c :: rest =>
    match matchPathAt (c :: rest) with
    | some grp => some (String.mk grp)
    | none => findPathSubmatch rest

/-- FindStringSubmatch of the fixed pattern on a message: the first captured
group, when the pattern matches. -/
def regexFindPath (s : String) : Option String :=
  findPathSubmatch s.toList

/-- The loop over apiErr.RelatedErrors at childsubnet.go lines 378 to 393:
the first related error with code 520012 whose message matches the path
pattern yields the captured path; a nil ErrorCode pointer is the Go panic. -/
def findExhaustedPath : List ApiErrItem → Except String (Option String)
  | [] => .ok none
  | item :: rest =>
    match item.errorCode with
    | none => .error "invalid memory address or nil pointer dereference"
    | some code =>
      if code = 520012 then
        match item.errorMessage with
        | none => .error "invalid memory address or nil pointer dereference"
        | some msg =>
          match regexFindPath msg with
          | some p => .ok (some p)
          | none => findExhaustedPath rest
      else findExhaustedPath rest

/-- sets.Set.Has on the exhausted IP block set: reading an entry of a nil Go
map is safe and reports absence. -/
def setHas : Option (List String) → String → Bool
  | none, _ => false
  | some l, p => l.contains p

/-- sets.Set.Insert on the exhausted IP block set: the set is a Go map, and
assignment to an entry of the nil map is a runtime panic. -/
def setInsert : Option (List String) → String → Except String (Option (List String))
  | none, _ => .error "assignment to entry in nil map"
  | some l, p => .ok (some (if l.contains p then l else l ++ [p]))

/-- sets.Set.Delete on the exhausted IP block set: the Go delete builtin is a
no-op on a nil map. -/
def setDelete : Option (List String) → String → Option (List String)
  | none, _ => none
  | some l, p => some (l.filter (fun q => !(q == p)))

/-- The guarded insertion at childsubnet.go lines 386 to 388: Insert only when
Has reports absence. On the never-initialized nil set the Has guard reads
false and the Insert panics. -/
def exhaustedInsertOnce (s : Option (List String)) (p : String) :
    Except String (Option (List String)) :=
  if setHas s p then .ok s else setInsert s p

/-- Outcome of createChildSubnets: the intent path, gateway network and VLAN
tag on success, an error, or a Go runtime panic. -/
inductive CreateOutcome where
  | ok (path : String) (gwNet : IPNet) (vlan : Int)
  | err (e : NsxErr)
  | panic (msg : String)
deriving DecidableEq, Repr

/-- Result of one createChildSubnets run: the outcome, the exhausted IP block
set afterwards, and the requests sent to the backend in order. -/
structure CreateResult where
  outcome : CreateOutcome
  exhausted : Option (List String)
  requests : List Request
deriving DecidableEq, Repr

/-- common.RealizeMaxRetries is not under src; the spec gives 3 attempts as
the example budget. No claim depends on the exact value. -/
def realizeMaxRetries : Nat := 3

/-- One realized-state listing and scan (childsubnet.go lines 220 to 239),
reduced to the oracle: the optional cidr and gateway extracted from the
realized entities, or the backend error of the listing call. -/
def realizedScan (backend : Backend) (attempt : Nat) :
    Option IPNet × Option IP × Option BackendErr :=
  match backend.realized attempt with
  | .error e => (none, none, some e)
  | .ok (cidr, gw) => (cidr, gw, none)

/-- acquireSegmentCIDRAndGateway from childsubnet.go lines 218 to 254: list
the realized state (one request per attempt); a backend error is returned
at once; when both the cidr and the gateway are present the pair is
returned; otherwise retry until the budget is exhausted, in which case no
values and no error are returned. -/
def acquireSegmentCIDRAndGateway (backend : Backend) (attempt : Nat) :
    Nat → ((Option IPNet × Option IP × Option BackendErr) × List Request)
  | 0 =>
    match realizedScan backend attempt with
    | (_, _, some e) => ((none, none, some e), [Request.realizedList attempt])
    | (some c, some g, none) => ((some c, some g, none), [Request.realizedList attempt])
    | (_, _, none) => ((none, none, none), [Request.realizedList attempt])
  | r + 1 =>
    match realizedScan backend attempt with
    | (_, _, some e) => ((none, none, some e), [Request.realizedList attempt])
    | (some c, some g, none) => ((some c, some g, none), [Request.realizedList attempt])
    | (_, _, none) =>
      let (res, reqs) := acquireSegmentCIDRAndGateway backend (attempt + 1) r
      (res, Request.realizedList attempt :: reqs)

/-- The compensating patch issued by the deferred rollback at childsubnet.go
lines 398 to 405: the pool and block subnet tombstoned and re-wrapped. -/
def compensationRequest (pool : IpAddressPool) (sub : IpAddressPoolBlockSubnet) : Request :=
  Request.infraPatch (WrapHierarchyIPPool
    { pool with markedForDelete := some true }
    { sub with markedForDelete := some true })

/-- The error branch of the pool create patch at childsubnet.go lines 372 to
395: dump the structured error; when a related error carries the capacity
code and a matching path, record the path in the exhausted set once and
return the typed IPBlockExhausted error; otherwise return the raw backend
error. -/
def handleIPPoolPatchErr (st : ServiceState) (e : BackendErr) (reqs : List Request) :
    CreateResult :=
  match dumpAPIError e with
  | some apiErr =>
    match findExhaustedPath apiErr.relatedErrors with
    | .error msg => { outcome := .panic msg, exhausted := st.exhaustedIPBlock, requests := reqs }
    | .ok (some p) =>
      match exhaustedInsertOnce st.exhaustedIPBlock p with
      | .error msg =>
        { outcome := .panic msg, exhausted := st.exhaustedIPBlock, requests := reqs }
      | .ok ex =>
        { outcome := .err (.ipBlockExhausted ("ip block " ++ p ++ " is exhausted")),
          exhausted := ex, requests := reqs }
    | .ok none =>
      { outcome := .err (.backend e), exhausted := st.exhaustedIPBlock, requests := reqs }
  | none =>
    { outcome := .err (.backend e), exhausted := st.exhaustedIPBlock, requests := reqs }

/-- createChildSubnets from childsubnet.go lines 351 to 441. The oracle
decides the backend outcomes. The deferred rollback patches the tombstoned
pool only when nsxErr is non-nil at return; a panic unwinds with nsxErr
still nil, so no compensation accompanies a panic. After both patches
succeed the store update applyResourcesInStore raises the interface
conversion panic described at its definition. -/
def createChildSubnets (st : ServiceState) (cs : ChildSubnet) (pc : ParentConfig)
    (tags : List Tag) (backend : Backend) : CreateResult :=
  match nextVlan st.connectionBindingMapStore pc cs.uid cs.specParent with
  | .panicNilDeref =>
    { outcome := .panic "invalid memory address or nil pointer dereference",
      exhausted := st.exhaustedIPBlock, requests := [] }
  | .allocErr msg =>
    { outcome := .err (.strErr msg), exhausted := st.exhaustedIPBlock, requests := [] }
  | .ok vlan =>
    let tier1 := getTier1ByParent st pc
    let ipBlockPath := getValidIPBlockPath cs.accessMode pc
    let (nsxIPPool, nsxIPPoolSubnet) := buildIPPoolWithSubnets cs (some ipBlockPath) tags
    let createReq := Request.infraPatch (WrapHierarchyIPPool nsxIPPool nsxIPPoolSubnet)
    match backend.ipPoolPatch with
    | some e => handleIPPoolPatchErr st e [createReq]
    | none =>
      let (acq, pollReqs) := acquireSegmentCIDRAndGateway backend 0 realizeMaxRetries
      let reqs0 := createReq :: pollReqs
      match acq with
      | (_, _, some e) =>
        { outcome := .err (.backend e), exhausted := st.exhaustedIPBlock,
          requests := reqs0 ++ [compensationRequest nsxIPPool nsxIPPoolSubnet] }
      | (none, _, none) =>
        { outcome := .panic "invalid memory address or nil pointer dereference",
          exhausted := st.exhaustedIPBlock, requests := reqs0 }
      | (some c, gw, none) =>
        let gwNet : IPNet := { ip := ((gw.map IP.addr).getD ""), mask := c.mask }
        let segment := buildSegment cs pc (buildIPPoolIntentPath cs) [gwNet] tags
        let bindingMaps := buildSegmentConnectionBindingMaps cs.uid cs.name pc vlan tags
        let natRules := buildPolicySNATRules cs [c] tags
        match WrapHierarchySegmentAndNAT segment bindingMaps tier1 BuildDefaultSNAT natRules with
        | .error msg =>
          { outcome := .panic msg, exhausted := st.exhaustedIPBlock, requests := reqs0 }
        | .ok infraUpdate =>
          let reqs1 := reqs0 ++ [Request.infraPatch infraUpdate]
          match backend.segmentPatch with
          | some e =>
            { outcome := .err (.backend e), exhausted := st.exhaustedIPBlock,
              requests := reqs1 ++ [compensationRequest nsxIPPool nsxIPPoolSubnet] }
          | none =>
            { outcome := .panic "interface conversion: interface is a slice, not IpAddressPool",
              exhausted := st.exhaustedIPBlock, requests := reqs1 }

/-- Value carried by the empty-interface parameter of a store Apply method:
either a single resource pointer or a slice of pointers. The Go methods
recover the static type with a one-result type assertion, which panics when
the dynamic type differs. -/
inductive StoreApplyArg (a : Type) where
  | ptr (x : Option a)
  | slice (xs : List (Option a))

/-- cache.Indexer delete keyed by the dereferenced Id (keyFunc, part_003
lines 20 to 39). -/
def storeDelete {a : Type} (getId : a → Option String) (store : List a) (x : a) :
    Except String (List a) :=
  match getId x with
  | none => .error "invalid memory address or nil pointer dereference"
  | some i => .ok (store.filter (fun y => !(getId y == some i)))

/-- cache.Indexer add keyed by the dereferenced Id: upsert at most one entry
per id. -/
def storeAdd {a : Type} (getId : a → Option String) (store : List a) (x : a) :
    Except String (List a) :=
  match getId x with
  | none => .error "invalid memory address or nil pointer dereference"
  | some i => .ok ((store.filter (fun y => !(getId y == some i))) ++ [x])

/-- One store apply step: delete on a set tombstone, upsert otherwise. -/
def storeApplyOne {a : Type} (getId : a → Option String) (getDel : a → Option Bool)
    (store : List a) (x : a) : Except String (List a) :=
  if getDel x = some true then storeDelete getId store x else storeAdd getId store x

/-- Apply a slice of resource pointers in order; a nil element panics when the
loop dereferences its tombstone flag. -/
def storeApplySlice {a : Type} (getId : a → Option String) (getDel : a → Option Bool)
    (store : List a) : List (Option a) → Except String (List a)
  | [] => .ok store
  | none :: _ => .error "invalid memory address or nil pointer dereference"
  | some x :: rest =>
    match storeApplyOne getId getDel store x with
    | .error e => .error e
    | .ok st1 => storeApplySlice getId getDel st1 rest

/-- IPPoolStore.Apply from part_003 lines 177 to 193: asserts a single pool
pointer; any other dynamic type is the interface conversion panic. -/
def ipPoolStoreApply (store : List IpAddressPool) :
    StoreApplyArg IpAddressPool → Except String (List IpAddressPool)
  | .ptr (some p) => storeApplyOne (fun x => x.id) (fun x => x.markedForDelete) store p
  | .ptr none => .error "invalid memory address or nil pointer dereference"
  | .slice _ => .error "interface conversion: interface is a slice, not IpAddressPool"

/-- IPPoolBlockSubnetStore.Apply from part_003 lines 271 to 289: asserts a
slice of block subnets. -/
def ipSubnetStoreApply (store : List IpAddressPoolBlockSubnet) :
    StoreApplyArg IpAddressPoolBlockSubnet → Except String (List IpAddressPoolBlockSubnet)
  | .slice xs => storeApplySlice (fun x => x.id) (fun x => x.markedForDelete) store xs
  | .ptr _ => .error "interface conversion: interface is not a slice"

/-- SegmentStore.Apply from part_003 lines 356 to 374: asserts a slice of
segments. -/
def segmentStoreApply (store : List Segment) :
    StoreApplyArg Segment → Except String (List Segment)
  | .slice xs => storeApplySlice (fun x => x.id) (fun x => x.markedForDelete) store xs
  | .ptr _ => .error "interface conversion: interface is not a slice"

/-- SegmentConnectionBindingMapStore.Apply from part_003 lines 413 to 431:
asserts a slice of binding maps. -/
def cbmStoreApply (store : List SegmentConnectionBindingMap) :
    StoreApplyArg SegmentConnectionBindingMap →
    Except String (List SegmentConnectionBindingMap)
  | .slice xs => storeApplySlice (fun x => x.id) (fun x => x.markedForDelete) store xs
  | .ptr _ => .error "interface conversion: interface is not a slice"

/-- NATRuleStore.Apply from part_003 lines 623 to 642: asserts a single NAT
rule pointer. -/
def natRuleStoreApply (store : List PolicyNatRule) :
    StoreApplyArg PolicyNatRule → Except String (List PolicyNatRule)
  | .ptr (some p) => storeApplyOne (fun x => x.id) (fun x => x.markedForDelete) store p
  | .ptr none => .error "invalid memory address or nil pointer dereference"
  | .slice _ => .error "interface conversion: interface is a slice, not PolicyNatRule"

/-- applyResourcesInStore from childsubnet.go lines 443 to 469: the five store
Apply calls in order, each handed exactly the Go argument shape (a
one-element pool slice, subnet and segment and binding map slices, the NAT
rule slice); the first Apply whose dynamic type does not match its assertion
panics. -/
def applyResourcesInStore (st : ServiceState) (nsxIPPool : Option IpAddressPool)
    (nsxIPPoolSubnet : Option IpAddressPoolBlockSubnet) (segment : Option Segment)
    (bindingMaps : List SegmentConnectionBindingMap) (natRules : List PolicyNatRule) :
    Except String ServiceState :=
  match ipPoolStoreApply st.ipPoolStore (.slice [nsxIPPool]) with
  | .error e => .error e
  | .ok pools =>
    match ipSubnetStoreApply st.ipBlockSubnetStore (.slice [nsxIPPoolSubnet]) with
    | .error e => .error e
    | .ok subs =>
      match segmentStoreApply st.childSegmentStore (.slice [segment]) with
      | .error e => .error e
      | .ok segs =>
        match cbmStoreApply st.connectionBindingMapStore (.slice (bindingMaps.map some)) with
        | .error e => .error e
        | .ok cbms =>
          match natRuleStoreApply st.natRuleStore (.slice (natRules.map some)) with
          | .error e => .error e
          | .ok nats =>
            .ok ({ st with
              ipPoolStore := pools
              ipBlockSubnetStore := subs
              childSegmentStore := segs
              connectionBindingMapStore := cbms
              natRuleStore := nats })

/-- The exhausted-set bookkeeping at the end of DeleteChildSubnet
(childsubnet.go lines 179 to 187): dereference the deleted pool block
subnet (a Go panic when it is absent) and, when its block path is in the
exhausted set, remove it; no check of other remaining pool subnets from the
same block is made. -/
def releaseExhaustedIPBlock (exhausted : Option (List String))
    (ipPoolSubnet : Option IpAddressPoolBlockSubnet) :
    Except String (Option (List String)) :=
  match ipPoolSubnet with
  | none => .error "invalid memory address or nil pointer dereference"
  | some sub =>
    match sub.ipBlockPath with
    | none => .ok exhausted
    | some p =>
      if setHas exhausted p then .ok (setDelete exhausted p)
      else .ok exhausted

/-- Outcome of DeleteChildSubnet. -/
inductive DeleteOutcome where
  | ok
  | err (e : NsxErr)
  | panic (msg : String)
deriving DecidableEq, Repr

/-- Result of one DeleteChildSubnet run: outcome, service state afterwards and
the requests sent to the backend. -/
structure DeleteResult where
  outcome : DeleteOutcome
  state : ServiceState
  requests : List Request
deriving DecidableEq, Repr

/-- DeleteChildSubnet from childsubnet.go lines 113 to 188: resolve and
tombstone the cached resources of the ChildSubnet, build the hierarchy
delete request, patch it when non-nil, update the stores and release the
exhausted block. An absent child segment is a silent no-op success. -/
def DeleteChildSubnet (st : ServiceState) (cs : ChildSubnet) (backend : Backend) :
    DeleteResult :=
  match segGetByChildSubnet st.childSegmentStore cs.uid with
  | none => { outcome := .ok, state := st, requests := [] }
  | some childSegment0 =>
    let childSegment := { childSegment0 with markedForDelete := some true }
    let bindingMaps := (cbmListByChildSubnet st.connectionBindingMapStore cs.uid).map
      (fun bm => { bm with markedForDelete := some true })
    match parentConfigGetByNamespaceName st.parentConfigStore cs.specParent cs.namespc with
    | none =>
      { outcome := .err (.strErr ("no parent configuration found for ChildSubnet " ++ cs.uid
          ++ " with value " ++ cs.specParent)), state := st, requests := [] }
    | some parentConfig =>
      let tier1 := getTier1ByParent st parentConfig
      let natRules := (natListByChildSubnet st.natRuleStore cs.uid).map
        (fun r => { r with markedForDelete := some true })
      let nat := BuildDefaultSNAT
      let ipPool := (ipPoolGetByChildSubnet st.ipPoolStore cs.uid).map
        (fun p => { p with markedForDelete := some true })
      let ipPoolSubnet := (ipSubnetGetByChildSubnet st.ipBlockSubnetStore cs.uid).map
        (fun p => { p with markedForDelete := some true })
      match WrapHierarchyInfra ipPool ipPoolSubnet (some childSegment) bindingMaps tier1 nat
          natRules with
      | .error msg => { outcome := .panic msg, state := st, requests := [] }
      | .ok maybeInfra =>
        let patchReqs := match maybeInfra with
          | some infraUpdate => [Request.infraPatch infraUpdate]
          | none => []
        match maybeInfra, backend.infraDeletePatch with
        | some _, some e =>
          { outcome := .err (.backend e), state := st, requests := patchReqs }
        | _, _ =>
          match applyResourcesInStore st ipPool ipPoolSubnet (some childSegment) bindingMaps
              natRules with
          | .error msg => { outcome := .panic msg, state := st, requests := patchReqs }
          | .ok st1 =>
            match releaseExhaustedIPBlock st1.exhaustedIPBlock ipPoolSubnet with
            | .error msg => { outcome := .panic msg, state := st1, requests := patchReqs }
            | .ok ex =>
              { outcome := .ok, state := { st1 with exhaustedIPBlock := ex },
                requests := patchReqs }

/-- Whether a request patches a tombstoned IP pool, that is, whether it is a
compensating delete of the primary resource. -/
def isTombstonedPoolPatch : Request → Bool
  | .infraPatch i =>
    i.children.any (fun c =>
      match c with
      | .ipPoolChild pool _ => pool.markedForDelete == some true
      | _ => false)
  | _ => false

/-- Empty service state fixture. -/
def emptyState : ServiceState := {}

/-- The service state constructed by InitializeChildSubnet (childsubnet.go
lines 51 to 62), before the initial listings populate the stores: every
store fresh and the exhaustedIPBlock field never assigned, hence the nil
map. -/
def initialChildSubnetService : ServiceState := {}

/-- Backend fixture on which every call succeeds and the realized state never
carries values. -/
def backendOk : Backend := {}

/-- ChildSubnet fixture. -/
def csFixture : ChildSubnet :=
  { uid := "u1", name := "cs1", namespc := "ns1", specParent := "vnet1" }

/-- Parent configuration fixture matching csFixture, with no candidate parent
segment paths. -/
def pcFixture : ParentConfig :=
  { id := "pc1", name := "vnet1", namespc := "ns1",
    privateIPBlockPath := "/infra/ip-blocks/b1" }

/-- Backend fixture for the C2 failing input: the pool create patch succeeds
and no polling attempt ever carries the realized values, so the retry budget
is exhausted. -/
def c2ExhaustBackend : Backend :=
  { realized := fun _ => Except.ok (none, none) }

/-- Backend fixture for the complementary C2 scenario: realization succeeds at
once and the follow-on segment patch fails. -/
def c2SegmentFailBackend : Backend :=
  { realized := fun _ => Except.ok
      (some { ip := "10.0.0.0", mask := "ffffff00" }, some { addr := "10.0.0.1" }),
    segmentPatch := some (BackendErr.transport "segment patch failed") }

/-- The capacity error message fixture for C3, carrying the block path in the
fixed pattern. -/
def c3Msg : String :=
  "IpAddressBlock with max size does not have spare capacity to satisfy new block subnet of size 256 path=[/infra/ip-blocks/block-test]"

/-- Backend fixture for the C3 witness: the pool create patch fails with the
structured capacity error. -/
def c3Backend : Backend :=
  { ipPoolPatch := some (BackendErr.api
      { relatedErrors := [ { errorCode := some 520012, errorMessage := some c3Msg } ] }) }

/-- An IP block path fixture. -/
def blockPath1 : String := "/infra/ip-blocks/b1"

/-- A cached child segment owned by the given ChildSubnet uid. -/
def segFixture (uid : String) : Segment :=
  { id := some ("cs_" ++ uid), tags := [⟨tagScopeChildSubnetUID, uid⟩] }

/-- A cached pool block subnet owned by the given ChildSubnet uid and carved
from the given block. -/
def subFixture (uid blockPath : String) : IpAddressPoolBlockSubnet :=
  { id := some ("ibs_" ++ uid), ipBlockPath := some blockPath,
    tags := [⟨tagScopeChildSubnetUID, uid⟩] }

/-- Service state for the C9 failing input: the child segment of u1 exists but
the pool block subnet store has no entry for u1. -/
def c9State : ServiceState :=
  { childSegmentStore := [segFixture "u1"], parentConfigStore := [pcFixture] }

/-- Service state for the C4 failing input: two pool block subnets carved from
the same block, whose path sits in the exhausted set, and the child segment
of u1. -/
def c4State : ServiceState :=
  { childSegmentStore := [segFixture "u1"],
    ipBlockSubnetStore := [subFixture "u1" blockPath1, subFixture "u2" blockPath1],
    parentConfigStore := [pcFixture],
    exhaustedIPBlock := some [blockPath1] }

namespace SubnetBinding

/-- First binding map fixture for C1. -/
def c1BM1 : SubnetConnectionBindingMap := { id := "bm1" }

/-- Second binding map fixture for C1. -/
def c1BM2 : SubnetConnectionBindingMap := { id := "bm2" }

/-- Shared ancestor path fixture for C1. -/
def c1Path : String := "/orgs/o1/projects/p1/vpcs/v1/subnets/s1"

/-- Parsed components of c1Path. -/
def c1Info : VPCResourceInfo :=
  { orgID := "o1", projectID := "p1", vpcID := "v1", id := "s1" }

end SubnetBinding

/-- The vlanLoop search, when it yields a value, yields the smallest candidate
at least i that is not contained in the used set, and the value lies in the
closed range i to 4094. -/
theorem vlanLoop_some_spec (used : List Int) :
    ∀ (n : Nat) (i v : Int), vlanLoop used n i = some v →
      i ≤ v ∧ v < i + n ∧ used.contains v = false ∧
      ∀ j, i ≤ j → j < v → used.contains j = true := by
  intro n
  induction n with
  | zero =>
    intro i v h
    exact absurd h (by simp [vlanLoop])
  | succ n ih =>
    intro i v h
    rw [vlanLoop] at h
    by_cases hc : used.contains i = true
    · rw [if_pos hc] at h
      obtain ⟨h1, h2, h3, h4⟩ := ih (i + 1) v h
      refine ⟨by omega, by omega, h3, ?_⟩
      intro j hij hjv
      rcases eq_or_lt_of_le hij with heq | hlt
      · exact heq ▸ hc
      · exact h4 j (by omega) hjv
    · rw [if_neg hc] at h
      injection h with hiv
      subst hiv
      exact ⟨le_refl i, by omega, by simpa using hc, fun j hij hjv => absurd hjv (by omega)⟩

/-- The vlanLoop search fails exactly when every candidate among the n values
starting at i is contained in the used set. -/
theorem vlanLoop_none_iff (used : List Int) :
    ∀ (n : Nat) (i : Int), vlanLoop used n i = none ↔
      ∀ j, i ≤ j → j < i + n → used.contains j = true := by
  intro n
  induction n with
  | zero =>
    intro i
    constructor
    · intro _ j h1 h2
      omega
    · intro _
      simp [vlanLoop]
  | succ n ih =>
    intro i
    rw [vlanLoop]
    by_cases hc : used.contains i = true
    · rw [if_pos hc, ih (i + 1)]
      constructor
      · intro hall j h1 h2
        rcases eq_or_lt_of_le h1 with heq | hlt
        · exact heq ▸ hc
        · exact hall j (by omega) (by omega)
      · intro hall j h1 h2
        exact hall j (by omega) (by omega)
    · rw [if_neg hc]
      constructor
      · intro h
        exact absurd h (by simp)
      · intro hall
        exact absurd (hall i (le_refl i) (by omega)) hc

/-- C5: nextVlan returns the smallest integer in the closed range 1 to 4094
that is not used as the VLAN traffic tag of any binding map attached to a
candidate parent segment path (collected via the parent-segment-path
secondary index), and when all 4094 tags are in use it returns an
allocation-exhausted error naming the ChildSubnet and its parent instead of
a tag. The hypothesis states that the stored binding maps reached through
the index carry a VLAN tag, as does every map this service builds. -/
theorem nextVlan_spec (store : List SegmentConnectionBindingMap) (pc : ParentConfig)
    (uid specParent : String)
    (hTag : ∀ bm ∈ collectedBindingMaps store pc, bm.vlanTrafficTag ≠ none) :
    (∀ v, nextVlan store pc uid specParent = VlanOutcome.ok v →
      1 ≤ v ∧ v ≤ 4094 ∧ (usedVlans store pc).contains v = false ∧
      ∀ j, 1 ≤ j → j < v → (usedVlans store pc).contains j = true) ∧
    (nextVlan store pc uid specParent =
        VlanOutcome.allocErr ("no valid VLAN for segment connection binding maps for ChildSubnet "
          ++ uid ++ " to parent " ++ specParent) ↔
      ∀ j, 1 ≤ j → j ≤ 4094 → (usedVlans store pc).contains j = true) := by
  have hno : ((collectedBindingMaps store pc).any fun bm => bm.vlanTrafficTag.isNone) = false := by
    rw [List.any_eq_false]
    intro bm hbm
    simpa [Option.isNone_iff_eq_none] using hTag bm hbm
  rw [nextVlan, if_neg (by simp [hno])]
  cases hl : vlanLoop (usedVlans store pc) 4094 1 with
  | none =>
    have hall := (vlanLoop_none_iff (usedVlans store pc) 4094 1).mp hl
    refine ⟨fun v hv => by simp at hv, ?_, fun _ => rfl⟩
    intro _ j h1 h2
    exact hall j h1 (by omega)
  | some w =>
    constructor
    · intro v hv
      have hwv : w = v := by simpa using hv
      subst hwv
      obtain ⟨h1, h2, h3, h4⟩ := vlanLoop_some_spec (usedVlans store pc) 4094 1 w hl
      exact ⟨h1, by omega, h3, h4⟩
    · constructor
      · intro hv
        exact absurd hv (by simp)
      · intro hall
        rw [(vlanLoop_none_iff (usedVlans store pc) 4094 1).mpr
          (fun j hj1 hj2 => hall j hj1 (by omega))] at hl
        exact absurd hl (by simp)

/-- Witness for C5 at a concrete store and parent configuration. -/
theorem nextVlan_spec_witness :
    (∀ bm ∈ collectedBindingMaps vlanWitnessStore vlanWitnessPC, bm.vlanTrafficTag ≠ none) ∧
    ((∀ v, nextVlan vlanWitnessStore vlanWitnessPC "u1" "parent1" = VlanOutcome.ok v →
      1 ≤ v ∧ v ≤ 4094 ∧ (usedVlans vlanWitnessStore vlanWitnessPC).contains v = false ∧
      ∀ j, 1 ≤ j → j < v → (usedVlans vlanWitnessStore vlanWitnessPC).contains j = true) ∧
    (nextVlan vlanWitnessStore vlanWitnessPC "u1" "parent1" =
        VlanOutcome.allocErr ("no valid VLAN for segment connection binding maps for ChildSubnet "
          ++ "u1" ++ " to parent " ++ "parent1") ↔
      ∀ j, 1 ≤ j → j ≤ 4094 → (usedVlans vlanWitnessStore vlanWitnessPC).contains j = true)) :=
  ⟨by decide, nextVlan_spec vlanWitnessStore vlanWitnessPC "u1" "parent1" (by decide)⟩

/-- C8: the Go builder allocates its result with make of length n and then
appends, so for one candidate parent path it returns two entries whose first
is a nil pointer, and the comparable conversion does the same; the claimed
shape (exactly n non-nil entries) does not hold. -/
theorem buildSegmentConnectionBindingMaps_nil_entries :
    (buildSegmentConnectionBindingMaps "u1" "n1" onePathPC 10 []).length = 2 ∧
    (buildSegmentConnectionBindingMaps "u1" "n1" onePathPC 10 []).head? = some none ∧
    (SegmentConnectionBindingMapsToComparable
      [some (BuildSegmentConnectionBindingMap "scbm_u1_parent1" "n1_scbm_parent1"
        "/infra/segments/parent1" 10 [])]).length = 2 ∧
    (SegmentConnectionBindingMapsToComparable
      [some (BuildSegmentConnectionBindingMap "scbm_u1_parent1" "n1_scbm_parent1"
        "/infra/segments/parent1" 10 [])]).head? = some none := by
  refine ⟨rfl, rfl, rfl, rfl⟩

namespace SubnetBinding

/-- Merging two spines over the same ancestor path into an empty sibling list
yields a single spine holding both leaves in insertion order. -/
theorem insert_two_spines (o p v s : String) (bm1 bm2 : SubnetConnectionBindingMap) :
    insertNode (insertNode [] (spine o p v s [leafNodeOf bm1])) (spine o p v s [leafNodeOf bm2]) =
      [spine o p v s [leafNodeOf bm1, leafNodeOf bm2]] := by
  simp [spine, leafNodeOf, insertNode, replaceFirst, mergeNodeList, HNode.resourceType,
        HNode.resourceID, HNode.childNodes, HNode.withChildNodes, leafType]

/-- A parseable path is nonempty. -/
theorem parse_ne_empty (path : String) (info : VPCResourceInfo)
    (hp : parseVPCResourcePath path = some info) : (path == "") = false := by
  rcases h : path == "" with _ | _
  · rfl
  · exfalso
    have hpe : path = "" := by simpa using h
    rw [hpe] at hp
    have hnone : parseVPCResourcePath "" = none := rfl
    rw [hnone] at hp
    exact Option.noConfusion hp

/-- The merged root for two binding maps over a shared parseable subnet path:
one OrgRoot node over a single merged ancestor spine ending in the two leaf
wrappers in insertion order. -/
theorem buildRootNode_two_leaves (bm1 bm2 : SubnetConnectionBindingMap)
    (path : String) (info : VPCResourceInfo)
    (hp : parseVPCResourcePath path = some info) :
    buildRootNode [bm1, bm2] none path =
      .mk "OrgRoot" "" none
        [spine info.orgID info.projectID info.vpcID info.id
          [leafNodeOf bm1, leafNodeOf bm2]] := by
  have hne := parse_ne_empty path info hp
  simp [buildRootNode, hne, buildHNodeFromSubnetConnectionBindingMap, hp,
        HNode.mergeChildNode, HNode.withChildNodes, HNode.childNodes, HNode.resourceType,
        HNode.resourceID, insertNode, replaceFirst, mergeNodeList, leafType, spine, leafNodeOf]

/-- C1 amended: for two subnet-binding leaves sharing the same parseable
org/project/VPC/subnet ancestor path, the merged tree holds exactly one node
per distinct ancestor (type, id) pair, exactly four ancestor nodes in all
and exactly two leaf wrappers, for either insertion order; the two orders
agree on the ancestor skeleton and on the set of leaf wrappers, differing
only in the order of the two sibling leaf wrappers. -/
theorem hierarchy_merge_order_amended (bm1 bm2 : SubnetConnectionBindingMap)
    (path : String) (info : VPCResourceInfo)
    (hp : parseVPCResourcePath path = some info) :
    countNodes (buildRootNode [bm1, bm2] none path) "Org" info.orgID = 1 ∧
    countNodes (buildRootNode [bm1, bm2] none path) "Project" info.projectID = 1 ∧
    countNodes (buildRootNode [bm1, bm2] none path) "Vpc" info.vpcID = 1 ∧
    countNodes (buildRootNode [bm1, bm2] none path) "Subnet" info.id = 1 ∧
    countAncestors (buildRootNode [bm1, bm2] none path) = 4 ∧
    countLeaves (buildRootNode [bm1, bm2] none path) = 2 ∧
    countAncestors (buildRootNode [bm2, bm1] none path) = 4 ∧
    countLeaves (buildRootNode [bm2, bm1] none path) = 2 ∧
    stripLeaves (buildRootNode [bm1, bm2] none path) =
      stripLeaves (buildRootNode [bm2, bm1] none path) ∧
    (leafMaps (buildRootNode [bm1, bm2] none path)).Perm
      (leafMaps (buildRootNode [bm2, bm1] none path)) := by
  rw [buildRootNode_two_leaves bm1 bm2 path info hp,
      buildRootNode_two_leaves bm2 bm1 path info hp]
  refine ⟨?_, ?_, ?_, ?_, ?_, ?_, ?_, ?_, ?_, ?_⟩
  all_goals
    try (simp [countNodes, countNodesList, countAncestors, countAncestorsList,
      countLeaves, countLeavesList, stripLeaves, stripLeavesList,
      spine, leafNodeOf, leafType, HNode.resourceType]; done)
  simp only [leafMaps, leafMapsList, spine, leafNodeOf, leafType,
    Option.toList_some, List.append_nil, List.nil_append, reduceIte]
  exact List.Perm.swap bm2 bm1 []

/-- Witness for C1 at the concrete fixtures. -/
theorem hierarchy_merge_order_amended_witness :
    (parseVPCResourcePath c1Path = some c1Info) ∧
    (countNodes (buildRootNode [c1BM1, c1BM2] none c1Path) "Org" c1Info.orgID = 1 ∧
    countNodes (buildRootNode [c1BM1, c1BM2] none c1Path) "Project" c1Info.projectID = 1 ∧
    countNodes (buildRootNode [c1BM1, c1BM2] none c1Path) "Vpc" c1Info.vpcID = 1 ∧
    countNodes (buildRootNode [c1BM1, c1BM2] none c1Path) "Subnet" c1Info.id = 1 ∧
    countAncestors (buildRootNode [c1BM1, c1BM2] none c1Path) = 4 ∧
    countLeaves (buildRootNode [c1BM1, c1BM2] none c1Path) = 2 ∧
    countAncestors (buildRootNode [c1BM2, c1BM1] none c1Path) = 4 ∧
    countLeaves (buildRootNode [c1BM2, c1BM1] none c1Path) = 2 ∧
    stripLeaves (buildRootNode [c1BM1, c1BM2] none c1Path) =
      stripLeaves (buildRootNode [c1BM2, c1BM1] none c1Path) ∧
    (leafMaps (buildRootNode [c1BM1, c1BM2] none c1Path)).Perm
      (leafMaps (buildRootNode [c1BM2, c1BM1] none c1Path))) :=
  ⟨rfl, hierarchy_merge_order_amended c1BM1 c1BM2 c1Path c1Info rfl⟩

/-- C1 counterexample: the serialized OrgRoot requests for the two insertion
orders differ, the two leaf wrappers appearing in insertion order, so the
resulting tree is not literally the same regardless of order. -/
theorem hierarchy_merge_order_counterexample :
    buildOrgRootBySubnetConnectionBindingMaps [c1BM1, c1BM2] none c1Path ≠
      buildOrgRootBySubnetConnectionBindingMaps [c1BM2, c1BM1] none c1Path := by
  intro h
  rw [buildOrgRootBySubnetConnectionBindingMaps,
      buildOrgRootBySubnetConnectionBindingMaps,
      buildRootNode_two_leaves c1BM1 c1BM2 c1Path c1Info rfl,
      buildRootNode_two_leaves c1BM2 c1BM1 c1Path c1Info rfl] at h
  simp [HNode.buildTree, buildTreeList, spine, leafNodeOf, leafType,
    c1BM1, c1BM2, c1Info] at h

/-- C7 counterexample: on an empty batch the subnet-binding OrgRoot builder
returns a non-nil OrgRoot request rather than a nil one. -/
theorem empty_batch_orgroot_counterexample :
    buildOrgRootBySubnetConnectionBindingMaps [] none "" ≠ none := by
  simp [buildOrgRootBySubnetConnectionBindingMaps, buildRootNode,
    HNode.buildTree, buildTreeList, leafType]

end SubnetBinding

/-- C7 amended: an empty batch yields a nil request with no error from the
childsubnet infra wrapper, while the subnet-binding OrgRoot builder returns
a non-nil OrgRoot carrying an empty children list, also with no error. -/
theorem empty_batch_request_amended :
    WrapHierarchyInfra none none none [] none BuildDefaultSNAT [] = Except.ok none ∧
    SubnetBinding.buildOrgRootBySubnetConnectionBindingMaps [] none "" =
      some { children := [], resourceType := "OrgRoot" } := by
  constructor
  · rfl
  · simp [SubnetBinding.buildOrgRootBySubnetConnectionBindingMaps,
      SubnetBinding.buildRootNode, SubnetBinding.HNode.buildTree,
      SubnetBinding.buildTreeList, SubnetBinding.leafType]

/-- C6 counterexample: two binding maps with equal id, display name and tags
that differ in both the VLAN traffic tag and the parent segment path have
equal canonical values, and compare classifies the desired item as
unchanged, not changed. -/
theorem value_ignores_structural_fields_counterexample :
    c6MapA ≠ c6MapB ∧
    c6MapA.Value = c6MapB.Value ∧
    CompareResources [c6MapA] [c6MapB] = ([], []) := by
  refine ⟨by decide, by decide, by decide⟩

/-- C6 amended: the canonical value keeps only id, display name and tags, so
two binding maps equal on those fields have equal values no matter how
their structural fields differ, and compare reports no change and no stale
item for them. -/
theorem value_ignores_structural_fields (a b : SegmentConnectionBindingMap)
    (hid : a.id = b.id) (hname : a.displayName = b.displayName) (htags : a.tags = b.tags) :
    a.Value = b.Value ∧ CompareResources [a] [b] = ([], []) := by
  have hv : a.Value = b.Value := by
    simp [SegmentConnectionBindingMap.Value, hid, hname, htags]
  refine ⟨hv, ?_⟩
  simp [CompareResources, SegmentConnectionBindingMap.Key, hid, hv]

/-- Witness for C6 at the concrete pair. -/
theorem value_ignores_structural_fields_witness :
    (c6MapA.id = c6MapB.id ∧ c6MapA.displayName = c6MapB.displayName ∧
      c6MapA.tags = c6MapB.tags) ∧
    (c6MapA.Value = c6MapB.Value ∧ CompareResources [c6MapA] [c6MapB] = ([], [])) :=
  ⟨⟨rfl, rfl, rfl⟩, value_ignores_structural_fields c6MapA c6MapB rfl rfl rfl⟩

/-- C3: InitializeChildSubnet never initializes the exhausted IP block set,
so it is the nil map on every constructed service. When the pool create
patch fails with the structured capacity code 520012 and a message matching
the fixed path pattern, the code extracts the path, the Has guard reads
false off the nil set, and the Insert at childsubnet.go line 387 panics
(assignment to entry in nil map) before the typed IPBlockExhausted error at
line 390 is returned; the path is never recorded. On a counterfactually
initialized set the same run would record the path once and return the
typed error, so the claimed logic is present but unreachable. -/
theorem capacity_error_nil_set_panics :
    initialChildSubnetService.exhaustedIPBlock = none ∧
    regexFindPath c3Msg = some "/infra/ip-blocks/block-test" ∧
    (createChildSubnets initialChildSubnetService csFixture pcFixture [] c3Backend).outcome =
      CreateOutcome.panic "assignment to entry in nil map" ∧
    (createChildSubnets initialChildSubnetService csFixture pcFixture [] c3Backend).exhausted =
      none ∧
    (createChildSubnets { initialChildSubnetService with exhaustedIPBlock := some [] }
        csFixture pcFixture [] c3Backend).outcome =
      CreateOutcome.err (NsxErr.ipBlockExhausted
        ("ip block /infra/ip-blocks/block-test is exhausted")) ∧
    (createChildSubnets { initialChildSubnetService with exhaustedIPBlock := some [] }
        csFixture pcFixture [] c3Backend).exhausted =
      some ["/infra/ip-blocks/block-test"] := by
  refine ⟨rfl, by decide, rfl, rfl, rfl, rfl⟩

/-- C2: when the pool and block subnet have been created on the backend and
the realized-state polling exhausts its retry budget, the code dereferences
the nil cidr and panics; the deferred rollback sees a nil error during the
unwind, so no request in the log tombstones the pool and no compensating
delete is issued before the fault. In contrast, when realization succeeds
and the follow-on segment patch fails, the raw error is returned and the
final request is the compensating tombstoned-pool patch. -/
theorem polling_exhaustion_no_compensation :
    (createChildSubnets emptyState csFixture pcFixture [] c2ExhaustBackend).outcome =
      CreateOutcome.panic "invalid memory address or nil pointer dereference" ∧
    ((createChildSubnets emptyState csFixture pcFixture [] c2ExhaustBackend).requests.all
      (fun r => !isTombstonedPoolPatch r)) = true ∧
    (createChildSubnets emptyState csFixture pcFixture [] c2SegmentFailBackend).outcome =
      CreateOutcome.err (NsxErr.backend (BackendErr.transport "segment patch failed")) ∧
    ((createChildSubnets emptyState csFixture pcFixture []
      c2SegmentFailBackend).requests.getLast?).map isTombstonedPoolPatch = some true := by
  refine ⟨rfl, by decide, rfl, by decide⟩

/-- C9: deleting a ChildSubnet whose child segment exists while the pool block
subnet store has no entry does not complete cleanly: the store update
panics on the interface conversion in the pool store Apply, and the
exhausted-set bookkeeping itself dereferences the absent pool block
subnet. -/
theorem delete_absent_pool_subnet_faults :
    (DeleteChildSubnet c9State csFixture backendOk).outcome =
      DeleteOutcome.panic "interface conversion: interface is a slice, not IpAddressPool" ∧
    releaseExhaustedIPBlock none none =
      Except.error "invalid memory address or nil pointer dereference" := by
  refine ⟨rfl, rfl⟩

/-- C4: with two pool subnets carved from the same exhausted block,
DeleteChildSubnet never reaches the exhausted-set bookkeeping, the store
update panicking first, and the bookkeeping fragment itself removes the
block path unconditionally, without consulting the remaining pool
subnets. -/
theorem delete_exhausted_release_unconditional :
    (DeleteChildSubnet c4State csFixture backendOk).outcome =
      DeleteOutcome.panic "interface conversion: interface is a slice, not IpAddressPool" ∧
    (subFixture "u2" blockPath1) ∈ c4State.ipBlockSubnetStore ∧
    releaseExhaustedIPBlock (some [blockPath1])
      (some { subFixture "u1" blockPath1 with markedForDelete := some true }) =
      Except.ok (some []) := by
  refine ⟨rfl, by decide, rfl⟩

/-- C10: deleting a ChildSubnet with no child segment in the store is an
idempotent no-op: success, no backend request, every store and the
exhausted set unchanged. -/
theorem delete_no_segment_noop (st : ServiceState) (cs : ChildSubnet) (backend : Backend)
    (h : segGetByChildSubnet st.childSegmentStore cs.uid = none) :
    DeleteChildSubnet st cs backend =
      { outcome := DeleteOutcome.ok, state := st, requests := [] } := by
  rw [DeleteChildSubnet, h]

/-- Witness for C10 at the empty state. -/
theorem delete_no_segment_noop_witness :
    (segGetByChildSubnet emptyState.childSegmentStore csFixture.uid = none) ∧
    DeleteChildSubnet emptyState csFixture backendOk =
      { outcome := DeleteOutcome.ok, state := emptyState, requests := [] } :=
  ⟨rfl, delete_no_segment_noop emptyState csFixture backendOk rfl⟩

end NSXOp
